import Mathlib

set_option maxRecDepth 8000
set_option maxHeartbeats 2000000

/-!
Verification development for the build-validate-fix loop of the
dbt demo automation repository.

The embedding covers the four core components:
* `src/dbt_cli/error_parser.py`  — pattern-based error extraction and
  false-positive detection (`DbtErrorParser.parse`, `has_error_indicators`);
* `src/dbt_cli/auto_fixer.py`    — `DbtAutoFixer.diagnose_and_fix`,
  context gathering, prompt construction and response parsing;
* `src/dbt_cli/executor.py`      — `DbtCliExecutor._run` and the `build`
  wrapper (subprocess outcomes abstracted by an oracle);
* `src/dbt_cli/build_validator.py` — `BuildValidator.validate`, the
  attempt loop, and the resulting `BuildResult`.

The Python regular expressions are embedded as abstract-syntax trees
(`Pat`) interpreted by a backtracking matcher (`matRun`) in
continuation-passing style.  All repetitions occurring in the source
patterns are over single-character classes, so every star/plus loop
consumes at least one character per iteration and the matcher is
structurally recursive.  Greedy and lazy repetition, alternation order,
optional groups, capture groups, lookahead `(?=...)` and the end anchor
`\Z` follow Python `re` semantics.

Wall-clock fields (`elapsed_seconds`) and the progress callback (pure
logging, fire-and-forget in the source) are not modelled; filesystem
writes (`_write_files`, `_ensure_gitignore`, `apply_patches` writing to
disk) are abstracted to the data they return, and subprocess calls
(`subprocess.run`, git pushes) are abstracted by outcome oracles
supplied in environment records.
-/

namespace Dbt

abbrev Chars := List Char

/-- Python's `\s` class: `[ \t\n\r\f\v]` (ASCII inputs). -/
def isWs (c : Char) : Bool :=
  c = ' ' || c = '\t' || c = '\n' || c = '\r' || c = '\x0b' || c = '\x0c'

/-- Python's `\S`. -/
def isNonWs (c : Char) : Bool := !isWs c

/-- Python's `\d` (ASCII). -/
def isDigit (c : Char) : Bool := c.isDigit

/-- Python's `\w` (ASCII): letters, digits, underscore. -/
def isWord (c : Char) : Bool := c.isAlphanum || c = '_'

/-- `.` under `re.DOTALL`. -/
def dotAll (_ : Char) : Bool := true

/-- Pattern AST for the regular expressions appearing in the source.
`starG`/`plusG` are greedy `p*`/`p+` over a character class, `starL`/`plusL`
the lazy variants, `repRange p lo hi` is greedy `p{lo,hi}`, `opt` a greedy
`(?:...)?`, `grp` a capturing group, `look` a lookahead `(?=...)`, and
`eos` the `\Z` anchor.  `litCI` matches a literal case-insensitively
(stored lowercase), for the one `re.IGNORECASE` pattern. -/
inductive Pat where
  | lit : Chars → Pat
  | litCI : Chars → Pat
  | cls : (Char → Bool) → Pat
  | starG : (Char → Bool) → Pat
  | starL : (Char → Bool) → Pat
  | repRange : (Char → Bool) → Nat → Nat → Pat
  | seq : Pat → Pat → Pat
  | alt : Pat → Pat → Pat
  | opt : Pat → Pat
  | grp : Nat → Pat → Pat
  | look : Pat → Pat
  | eos : Pat

/-- Captured groups: index paired with captured text (most recent first). -/
abbrev Caps := List (Nat × Chars)

/-- Greedy `p*`: prefer consuming another matching character; on failure of
the continuation, give characters back one at a time. -/
def starGRun (p : Char → Bool) (k : Chars → Caps → Option (Chars × Caps)) :
    Chars → Caps → Option (Chars × Caps)
  | [], caps => k [] caps
  | c :: rest, caps =>
    if p c then
      match starGRun p k rest caps with
      | some r => some r
      | none => k (c :: rest) caps
    else k (c :: rest) caps

/-- Lazy `p*?`: prefer the continuation; extend by one character on failure. -/
def starLRun (p : Char → Bool) (k : Chars → Caps → Option (Chars × Caps)) :
    Chars → Caps → Option (Chars × Caps)
  | s, caps =>
    match k s caps with
    | some r => some r
    | none =>
      match s with
      | [] => none
      | c :: rest => if p c then starLRun p k rest caps else none

/-- Consume exactly `n` characters of class `p`. -/
def repExactRun (p : Char → Bool) (k : Chars → Caps → Option (Chars × Caps)) :
    Nat → Chars → Caps → Option (Chars × Caps)
  | 0, s, caps => k s caps
  | n + 1, s, caps =>
    match s with
    | [] => none
    | c :: rest => if p c then repExactRun p k n rest caps else none

/-- Consume up to `n` characters of class `p`, greedily. -/
def repUpToRun (p : Char → Bool) (k : Chars → Caps → Option (Chars × Caps)) :
    Nat → Chars → Caps → Option (Chars × Caps)
  | 0, s, caps => k s caps
  | n + 1, s, caps =>
    match s with
    | [] => k [] caps
    | c :: rest =>
      if p c then
        match repUpToRun p k n rest caps with
        | some r => some r
        | none => k (c :: rest) caps
      else k (c :: rest) caps

/-- The backtracking matcher, in continuation-passing style.  The
continuation receives the remaining input and the captures recorded so
far; the final result is the remaining input after the whole match plus
all captures. -/
def matRun : Pat → Chars → Caps → (Chars → Caps → Option (Chars × Caps)) →
    Option (Chars × Caps)
  | .lit l, s, caps, k =>
    if l.isPrefixOf s then k (s.drop l.length) caps else none
  | .litCI l, s, caps, k =>
    if (s.take l.length).map Char.toLower == l then k (s.drop l.length) caps
    else none
  | .cls p, s, caps, k =>
    match s with
    | c :: rest => if p c then k rest caps else none
    | [] => none
  | .starG p, s, caps, k => starGRun p k s caps
  | .starL p, s, caps, k => starLRun p k s caps
  | .repRange p lo hi, s, caps, k =>
    repExactRun p (fun s2 c2 => repUpToRun p k (hi - lo) s2 c2) lo s caps
  | .seq a b, s, caps, k =>
    matRun a s caps (fun s2 c2 => matRun b s2 c2 k)
  | .alt a b, s, caps, k =>
    match matRun a s caps k with
    | some r => some r
    | none => matRun b s caps k
  | .opt a, s, caps, k =>
    match matRun a s caps k with
    | some r => some r
    | none => k s caps
  | .grp i a, s, caps, k =>
    matRun a s caps (fun s2 c2 => k s2 ((i, s.take (s.length - s2.length)) :: c2))
  | .look a, s, caps, k =>
    match matRun a s caps (fun s2 c2 => some (s2, c2)) with
    | some _ => k s caps
    | none => none
  | .eos, s, caps, k =>
    if s.isEmpty then k s caps else none

/-- Anchored match at the start of `s` (Python `re.match`): the captures
on success. -/
def matchA (p : Pat) (s : Chars) : Option Caps :=
  match matRun p s [] (fun r c => some (r, c)) with
  | some (_, c) => some c
  | none => none

/-- One match of a search (Python `re.search`): matched text, captures,
and the remaining input after the match. -/
structure MatchRes where
  matched : Chars
  caps : Caps
  rest : Chars
deriving Repr

/-- Leftmost match: try an anchored match at each start position. -/
def searchPat (p : Pat) : Chars → Option MatchRes
  | [] =>
    match matRun p [] [] (fun r c => some (r, c)) with
    | some (rest, caps) => some { matched := [], caps := caps, rest := rest }
    | none => none
  | c :: t =>
    match matRun p (c :: t) [] (fun r c2 => some (r, c2)) with
    | some (rest, caps) =>
      some { matched := (c :: t).take ((c :: t).length - rest.length),
             caps := caps, rest := rest }
    | none => searchPat p t

/-- All non-overlapping matches, scanning left to right (Python
`re.finditer`).  The fuel is the input length plus one; every pattern in
the source consumes at least one character per match, and a zero-width
match advances by one character as Python does. -/
def finditerAux (p : Pat) : Nat → Chars → List MatchRes
  | 0, _ => []
  | fuel + 1, s =>
    match searchPat p s with
    | none => []
    | some m =>
      m :: (if m.matched.isEmpty then
              match m.rest with
              | [] => []
              | _ :: t => finditerAux p fuel t
            else finditerAux p fuel m.rest)

def finditer (p : Pat) (s : Chars) : List MatchRes :=
  finditerAux p (s.length + 1) s

/-- Look up a captured group (`m.group i`). -/
def capGet (caps : Caps) (i : Nat) : Chars :=
  match caps.find? (fun kv => kv.1 == i) with
  | some kv => kv.2
  | none => []

/-- Python's `needle in hay` substring test. -/
def containsSub : Chars → Chars → Bool
  | hay, needle =>
    if needle.isPrefixOf hay then true
    else
      match hay with
      | [] => false
      | _ :: t => containsSub t needle

/-- Strip characters satisfying `p` from both ends (Python `str.strip`). -/
def stripChars (p : Char → Bool) (s : Chars) : Chars :=
  ((s.dropWhile p).reverse.dropWhile p).reverse

/-- Python `str.strip()` (whitespace). -/
def stripWs (s : Chars) : Chars := stripChars isWs s

/-- Python `text.split(sep)` for a one-character separator. -/
def splitOnChar (sep : Char) : Chars → List Chars
  | [] => [[]]
  | c :: r =>
    match splitOnChar sep r with
    | [] => [[]]
    | h :: t => if c = sep then [] :: h :: t else (c :: h) :: t

/-- Python `text.split("\n")`. -/
def splitOnNl (s : Chars) : List Chars := splitOnChar '\n' s

/-- Python `"\n".flatten(lines)`. -/
def joinNl : List Chars → Chars
  | [] => []
  | [l] => l
  | l :: rest => l ++ '\n' :: joinNl rest

/-- Python `text[-n:]` (the whole text when shorter than `n`). -/
def takeRight (s : Chars) (n : Nat) : Chars := s.drop (s.length - n)

/-- Python `text[:n]`. -/
def takeLeft (s : Chars) (n : Nat) : Chars := s.take n

def ofChars (l : Chars) : String := ⟨l⟩

def pseq (l : List Pat) : Pat := l.foldr Pat.seq (Pat.lit [])

def palts : List Pat → Pat
  | [] => Pat.lit []
  | [p] => p
  | p :: rest => Pat.alt p (palts rest)

def plit (s : String) : Pat := Pat.lit s.data

def plitCI (s : String) : Pat := Pat.litCI (s.data.map Char.toLower)

def plusG (p : Char → Bool) : Pat := Pat.seq (Pat.cls p) (Pat.starG p)

def plusL (p : Char → Bool) : Pat := Pat.seq (Pat.cls p) (Pat.starL p)

/-- The trailing context `(?=\n\n|\Z)` shared by the block patterns. -/
def endAnchor : Pat := Pat.look (Pat.alt (plit "\n\n") Pat.eos)

/-! ### error_parser.py — data structures -/

/-- `ErrorCategory` (a `str` enum in the source). -/
inductive ErrorCategory where
  | compilation
  | database
  | test_failure
  | seed_error
  | dependency
  | yaml_parse
  | connection
  | unknown
deriving DecidableEq, Repr

/-- The enum's string value. -/
def ErrorCategory.val : ErrorCategory → String
  | .compilation => "compilation"
  | .database => "database"
  | .test_failure => "test_failure"
  | .seed_error => "seed_error"
  | .dependency => "dependency"
  | .yaml_parse => "yaml_parse"
  | .connection => "connection"
  | .unknown => "unknown"

/-- `DbtError`: structured representation of a single dbt error. -/
structure DbtError where
  category : ErrorCategory
  model_name : String := ""
  file_path : String := ""
  message : String := ""
  sql_error_code : String := ""
  raw_output : String := ""
  test_name : String := ""
  column_name : String := ""
  is_warning : Bool := false
deriving DecidableEq, Repr

/-! ### error_parser.py — patterns

Each definition transcribes one compiled pattern from the source; the
original pattern string is quoted in the comment. -/

/-- `_ERROR_INDICATORS`: substrings that indicate real errors regardless
of exit code. -/
def errorIndicators : List String :=
  [ "ERROR loading seed",
    "Database Error in",
    "Compilation Error in",
    "Runtime Error in",
    "Failure in test",
    "Failure in seed",
    "Parsing Error",
    "Validation Error" ]

/-- `_SUMMARY_ERROR_RE`:
`\d+ of \d+ (ERROR|FAIL)\s+(?:loading\s+)?(?:seed\s+file\s+|model\s+|test\s+)?(\S+)` -/
def summaryErrorPat : Pat :=
  pseq [ plusG isDigit, plit " of ", plusG isDigit, plit " ",
         Pat.grp 1 (Pat.alt (plit "ERROR") (plit "FAIL")), plusG isWs,
         Pat.opt (pseq [plit "loading", plusG isWs]),
         Pat.opt (palts [ pseq [plit "seed", plusG isWs, plit "file", plusG isWs],
                          pseq [plit "model", plusG isWs],
                          pseq [plit "test", plusG isWs] ]),
         Pat.grp 2 (plusG isNonWs) ]

/-- `_COMPILATION_RE`:
`Compilation Error in model (\S+) \(([^)]+)\)\s*\n(.*?)(?=\n\n|\Z)` with `re.DOTALL`. -/
def compilationPat : Pat :=
  pseq [ plit "Compilation Error in model ", Pat.grp 1 (plusG isNonWs),
         plit " (", Pat.grp 2 (plusG (fun c => c ≠ ')')), plit ")",
         Pat.starG isWs, plit "\n", Pat.grp 3 (Pat.starL dotAll), endAnchor ]

/-- `_DATABASE_RE`:
`Database Error in (?:model|test|seed) (\S+) \(([^)]+)\)\s*\n\s*(.*?)(?=\n\n|\Z)`
with `re.DOTALL`. -/
def databasePat : Pat :=
  pseq [ plit "Database Error in ",
         palts [plit "model", plit "test", plit "seed"], plit " ",
         Pat.grp 1 (plusG isNonWs),
         plit " (", Pat.grp 2 (plusG (fun c => c ≠ ')')), plit ")",
         Pat.starG isWs, plit "\n", Pat.starG isWs,
         Pat.grp 3 (Pat.starL dotAll), endAnchor ]

/-- `_TEST_FAIL_RE`:
`Failure in test (\S+) \(([^)]+)\)\s*\n(.*?)(?=\n\n|\Z)` with `re.DOTALL`. -/
def testFailPat : Pat :=
  pseq [ plit "Failure in test ", Pat.grp 1 (plusG isNonWs),
         plit " (", Pat.grp 2 (plusG (fun c => c ≠ ')')), plit ")",
         Pat.starG isWs, plit "\n", Pat.grp 3 (Pat.starL dotAll), endAnchor ]

/-- `_YAML_RE`:
`(?:Parsing|Validation) Error.*?in\s+(\S+\.yml)\s*\n(.*?)(?=\n\n|\Z)` with `re.DOTALL`. -/
def yamlPat : Pat :=
  pseq [ Pat.alt (plit "Parsing") (plit "Validation"), plit " Error",
         Pat.starL dotAll, plit "in", plusG isWs,
         Pat.grp 1 (pseq [plusG isNonWs, plit ".yml"]),
         Pat.starG isWs, plit "\n", Pat.grp 2 (Pat.starL dotAll), endAnchor ]

/-- `_SEED_RE`:
`(?:Database Error|Runtime Error) in seed (\S+) \(([^)]+)\)\s*\n(.*?)(?=\n\n|\Z)`
with `re.DOTALL`. -/
def seedPat : Pat :=
  pseq [ Pat.alt (plit "Database Error") (plit "Runtime Error"), plit " in seed ",
         Pat.grp 1 (plusG isNonWs),
         plit " (", Pat.grp 2 (plusG (fun c => c ≠ ')')), plit ")",
         Pat.starG isWs, plit "\n", Pat.grp 3 (Pat.starL dotAll), endAnchor ]

/-- `_SEED_FAILURE_RE`:
`Failure in seed (\S+) \(([^)]+)\)\s*\n(.*?)(?=\n\n|\Z)` with `re.DOTALL`. -/
def seedFailurePat : Pat :=
  pseq [ plit "Failure in seed ", Pat.grp 1 (plusG isNonWs),
         plit " (", Pat.grp 2 (plusG (fun c => c ≠ ')')), plit ")",
         Pat.starG isWs, plit "\n", Pat.grp 3 (Pat.starL dotAll), endAnchor ]

/-- `_RESULT_LINE_RE`: `\d+ of \d+ (PASS|FAIL|ERROR|WARN|SKIP)\s+(\S+)` -/
def resultLinePat : Pat :=
  pseq [ plusG isDigit, plit " of ", plusG isDigit, plit " ",
         Pat.grp 1 (palts [plit "PASS", plit "FAIL", plit "ERROR",
                           plit "WARN", plit "SKIP"]),
         plusG isWs, Pat.grp 2 (plusG isNonWs) ]

/-- The inline pattern extracting a SQL error code: `(\d{6})\s+\(\w+\):`
(used with `re.match`, i.e. anchored). -/
def sqlCodePat : Pat :=
  pseq [ Pat.grp 1 (Pat.repRange isDigit 6 6), plusG isWs,
         plit "(", plusG isWord, plit "):" ]

/-! ### error_parser.py — `DbtErrorParser` -/

/-- One `_COMPILATION_RE` loop iteration of `parse`. -/
def compilationErrors (combined : Chars) : List DbtError :=
  (finditer compilationPat combined).map (fun m =>
    { category := .compilation,
      model_name := ofChars (capGet m.caps 1),
      file_path := ofChars (capGet m.caps 2),
      message := ofChars (stripWs (capGet m.caps 3)),
      raw_output := ofChars m.matched })

/-- The `_DATABASE_RE` loop of `parse`, including SQL-code extraction. -/
def databaseErrors (combined : Chars) : List DbtError :=
  (finditer databasePat combined).map (fun m =>
    let msg := stripWs (capGet m.caps 3)
    let sqlCode :=
      match matchA sqlCodePat msg with
      | some caps => capGet caps 1
      | none => []
    { category := .database,
      model_name := ofChars (capGet m.caps 1),
      file_path := ofChars (capGet m.caps 2),
      message := ofChars msg,
      sql_error_code := ofChars sqlCode,
      raw_output := ofChars m.matched })

/-- The `_TEST_FAIL_RE` loop of `parse`. -/
def testFailErrors (combined : Chars) : List DbtError :=
  (finditer testFailPat combined).map (fun m =>
    { category := .test_failure,
      model_name := ofChars (capGet m.caps 1),
      file_path := ofChars (capGet m.caps 2),
      message := ofChars (stripWs (capGet m.caps 3)),
      test_name := ofChars (capGet m.caps 1),
      raw_output := ofChars m.matched })

/-- The `_SEED_RE` loop of `parse`. -/
def seedErrors (combined : Chars) : List DbtError :=
  (finditer seedPat combined).map (fun m =>
    { category := .seed_error,
      model_name := ofChars (capGet m.caps 1),
      file_path := ofChars (capGet m.caps 2),
      message := ofChars (stripWs (capGet m.caps 3)),
      raw_output := ofChars m.matched })

/-- The `_SEED_FAILURE_RE` loop of `parse`: appends only when no earlier
error (including ones appended by this very loop) has the same
`model_name`. -/
def addSeedFailures : List DbtError → List MatchRes → List DbtError
  | acc, [] => acc
  | acc, m :: ms =>
    let name := ofChars (capGet m.caps 1)
    if acc.any (fun e => e.model_name == name) then addSeedFailures acc ms
    else
      addSeedFailures
        (acc ++ [{ category := .seed_error,
                   model_name := name,
                   file_path := ofChars (capGet m.caps 2),
                   message := ofChars (stripWs (capGet m.caps 3)),
                   raw_output := ofChars m.matched }]) ms

/-- The `_YAML_RE` loop of `parse`. -/
def yamlErrors (combined : Chars) : List DbtError :=
  (finditer yamlPat combined).map (fun m =>
    { category := .yaml_parse,
      file_path := ofChars (capGet m.caps 1),
      message := ofChars (stripWs (capGet m.caps 2)),
      raw_output := ofChars m.matched })

/-- The `_RESULT_LINE_RE` loop of `parse`: FAIL/ERROR summary lines,
deduplicated against existing `model_name`/`test_name`. -/
def addResultLines : List DbtError → List MatchRes → List DbtError
  | acc, [] => acc
  | acc, m :: ms =>
    let status := ofChars (capGet m.caps 1)
    let name := ofChars (capGet m.caps 2)
    if status == "FAIL" || status == "ERROR" then
      if acc.any (fun e => e.model_name == name || e.test_name == name) then
        addResultLines acc ms
      else
        addResultLines
          (acc ++ [{ category := if status == "FAIL" then ErrorCategory.test_failure
                                 else ErrorCategory.unknown,
                     model_name := name,
                     message := status ++ ": " ++ name,
                     raw_output := ofChars m.matched }]) ms
    else addResultLines acc ms

/-- `DbtErrorParser._extract_context` (with its default `max_len = 500`). -/
def extractContext (text : Chars) : Chars :=
  let lines := splitOnNl text
  let errorLines :=
    (lines.filter (fun l => containsSub l "Error".data || containsSub l "FAIL".data)).map
      stripWs
  if !errorLines.isEmpty then joinNl (errorLines.take 5) else takeRight text 500

def connKeywords : List String := ["connection", "timeout", "refused", "authentication"]

def lowerChars (s : Chars) : Chars := s.map Char.toLower

/-- The final fallback of `parse`: when nothing matched but the combined
output still contains `"ERROR"` or `"FAIL"`, emit one synthetic
connection/unknown error. -/
def fallbackErrors (combined : Chars) (errs : List DbtError) : List DbtError :=
  if errs.isEmpty &&
      (containsSub combined "ERROR".data || containsSub combined "FAIL".data) then
    if connKeywords.any (fun kw => containsSub (lowerChars combined) kw.data) then
      errs ++ [{ category := .connection,
                 message := ofChars (extractContext combined),
                 raw_output := ofChars (takeRight combined 2000) }]
    else if containsSub combined "Error".data then
      errs ++ [{ category := .unknown,
                 message := ofChars (extractContext combined),
                 raw_output := ofChars (takeRight combined 2000) }]
    else errs
  else errs

/-- `DbtErrorParser.parse(stdout, stderr)`: the full extraction pipeline,
in source order, over `combined = f"{stdout}\n{stderr}"`. -/
def parse (stdout : String) (stderr : String) : List DbtError :=
  let combined := stdout.data ++ '\n' :: stderr.data
  let errs := compilationErrors combined ++ databaseErrors combined
      ++ testFailErrors combined ++ seedErrors combined
  let errs := addSeedFailures errs (finditer seedFailurePat combined)
  let errs := errs ++ yamlErrors combined
  let errs := addResultLines errs (finditer resultLinePat combined)
  fallbackErrors combined errs

/-- `DbtErrorParser.has_error_indicators(stdout, stderr)`. -/
def hasErrorIndicators (stdout : String) (stderr : String) : Bool :=
  let combined := stdout.data ++ '\n' :: stderr.data
  errorIndicators.any (fun i => containsSub combined i.data)
    || (searchPat summaryErrorPat combined).isSome

/-! ### auto_fixer.py — data structures -/

/-- `FilePatch`: a proposed file modification. -/
structure FilePatch where
  file_path : String
  original_content : String
  fixed_content : String
  explanation : String
  error_ref : String := ""
deriving DecidableEq, Repr

/-- `FixResult`: outcome of one auto-fix attempt. -/
structure FixResult where
  success : Bool
  patches : List FilePatch := []
  explanation : String := ""
  errors_addressed : Nat := 0
  errors_remaining : Nat := 0
deriving DecidableEq, Repr

/-- Environment of one `DbtAutoFixer` call: the project directory is
abstracted as a read oracle over relative paths, the `seeds/*.csv`
directory listing as `(stem, content)` pairs in glob order, and the
generative backend as a function that either returns a response or
raises (`Except.error`, the Python exception path). -/
structure FixEnv where
  disk : String → Option String
  seedCsvs : List (String × String)
  generate : String → String → Except String String

/-! ### auto_fixer.py — prompt text -/

/-- `DBT_SKILLS_CONTEXT` (module-level constant). -/
def skillsContext : String :=
  "\n## dbt Best Practices — Agent Skills Reference\n\n"
  ++ "### Key Principles\n"
  ++ "1. **Always inspect the data first.** Before fixing a model, understand the upstream data shape.\n"
  ++ "2. **Check the DAG.** Understand upstream dependencies before modifying a model.\n"
  ++ "3. **Work iteratively.** Fix one error at a time, validate, then proceed.\n"
  ++ "4. **Use ref() for seeds, source() only for warehouse-external sources.**\n"
  ++ "5. **Avoid SELECT * in joins** — it causes duplicate column errors. Explicitly list columns.\n"
  ++ "6. **Schema resolution:** When seeds use `+schema: seeds` in dbt_project.yml the actual\n"
  ++ "   schema is `<target_schema>_seeds`, NOT a literal `seeds` schema.  Never define seeds\n"
  ++ "   as sources — use the `seeds:` key in schema.yml.\n"
  ++ "7. **Test what exists.** Only add accepted_values tests after confirming actual column values.\n\n"
  ++ "### Common Error Patterns & Fixes\n\n"
  ++ "| Error | Cause | Fix |\n"
  ++ "|-------|-------|-----|\n"
  ++ "| Duplicate column name | `SELECT *` on a JOIN where both tables share a column | Use `base.*` + explicit non-overlapping columns from joined tables |\n"
  ++ "| Schema does not exist | Seeds defined as `sources:` instead of `seeds:` in schema.yml | Use `seeds:` key; models should `ref()` seeds |\n"
  ++ "| Model not found | `ref('name')` has a typo or model file is missing | Verify filenames match ref() arguments exactly |\n"
  ++ "| Test failure (unique/not_null) | Seed data has duplicates or NULLs in tested columns | Fix seed CSV data, or loosen the test |\n"
  ++ "| Invalid identifier | Column referenced doesn't exist upstream | Check actual columns in the source/upstream model |\n"
  ++ "| Ambiguous column | Column exists in multiple joined tables without qualifier | Prefix with table alias in JOINs |\n\n"
  ++ "### dbt Layer Conventions\n"
  ++ "- **Staging:** Simple rename/cast, materialized as view, one per source.\n"
  ++ "- **Intermediate:** Business logic + joins.  Always alias joined columns.\n"
  ++ "- **Marts:** Final aggregations, materialized as table.\n"
  ++ "- **Seeds:** Small reference/demo data.  Every table must have a unique `id` column first.\n\n"
  ++ "### SQL Style\n"
  ++ "- Use CTEs (WITH clauses), not subqueries.\n"
  ++ "- One model per file; lowercase SQL keywords.\n"
  ++ "- End SELECT with an explicit column list when joining.\n"

/-- `DbtAutoFixer._system_prompt()`. -/
def systemPromptText : String :=
  "You are a senior dbt analytics engineer tasked with fixing errors "
  ++ "in a dbt project.  You have deep expertise in dbt best practices, "
  ++ "SQL, and data modelling.\n\n"
  ++ skillsContext ++ "\n\n"
  ++ "## Your Task\n"
  ++ "You will receive:\n"
  ++ "1. One or more dbt errors with their full error messages\n"
  ++ "2. The relevant file contents (models, schemas, seed data)\n"
  ++ "3. The dbt_project.yml configuration\n\n"
  ++ "For each error, provide:\n"
  ++ "1. A brief diagnosis (what went wrong and why)\n"
  ++ "2. The exact file fix needed\n\n"
  ++ "## Response Format\n"
  ++ "For each fix, respond with this EXACT format:\n\n"
  ++ "### FIX: <brief description>\n"
  ++ "**File:** <relative file path>\n"
  ++ "**Diagnosis:** <one sentence explanation>\n"
  ++ "```sql\n<complete fixed file content>\n```\n\n"
  ++ "IMPORTANT:\n"
  ++ "- Provide the COMPLETE file content, not just changed lines.\n"
  ++ "- For YAML files use ```yaml, for CSV use ```csv.\n"
  ++ "- Fix the root cause, not the symptom.\n"
  ++ "- If an error is caused by an upstream issue, fix upstream first.\n"
  ++ "- Never add columns that don't exist in the source data.\n"
  ++ "- When fixing duplicate columns, use explicit column lists.\n"

/-! ### auto_fixer.py — context gathering -/

def btickChar : Char := Char.ofNat 96

def quoteChar : Char := Char.ofNat 39

def isQuoteChar (c : Char) : Bool := c = quoteChar || c = '"'

/-- The `ref()` extraction pattern in `_gather_context`:
`ref\(['\"](\w+)['\"]\)`. -/
def refPat : Pat :=
  pseq [ plit "ref(", Pat.cls isQuoteChar, Pat.grp 1 (plusG isWord),
         Pat.cls isQuoteChar, plit ")" ]

def ctxHas (ctx : List (String × String)) (k : String) : Bool :=
  ctx.any (fun kv => kv.1 == k)

/-- Python `ctx[k] = v`: replace in place when present, append otherwise. -/
def ctxAssign (ctx : List (String × String)) (k v : String) :
    List (String × String) :=
  if ctxHas ctx k then ctx.map (fun kv => if kv.1 == k then (k, v) else kv)
  else ctx ++ [(k, v)]

/-- `DbtAutoFixer._read_into`: add the file's content under its relative
path when the file exists and the key is not yet present. -/
def readInto (disk : String → Option String) (ctx : List (String × String))
    (k : String) : List (String × String) :=
  match disk k with
  | some c => if ctxHas ctx k then ctx else ctx ++ [(k, c)]
  | none => ctx

/-- The upstream-`ref()` part of `_gather_context`: for each referenced
name, probe the three layer prefixes and both extensions, truncating CSV
files to 15 lines. -/
def addUpstreamRefs (disk : String → Option String)
    (ctx : List (String × String)) (refs : List String) :
    List (String × String) :=
  refs.foldl (fun ctx1 refName =>
    (["models/staging", "models/intermediate", "seeds"]).foldl (fun ctx2 pre =>
      ([".sql", ".csv"]).foldl (fun ctx3 ext =>
        let candidate := pre ++ "/" ++ refName ++ ext
        match disk candidate with
        | some c =>
          let c2 := if ext == ".csv" then ofChars (joinNl ((splitOnNl c.data).take 15))
                    else c
          ctxAssign ctx3 candidate c2
        | none => ctx3) ctx2) ctx1) ctx

/-- The seed-CSV part of `_gather_context` for test failures: any seed
whose stem is contained in the model name (or vice versa), truncated to
20 lines. -/
def addSeedCsvs (seedCsvs : List (String × String)) (modelName : String)
    (ctx : List (String × String)) : List (String × String) :=
  seedCsvs.foldl (fun ctx1 sc =>
    if containsSub modelName.data sc.1.data || containsSub sc.1.data modelName.data then
      ctxAssign ctx1 ("seeds/" ++ sc.1 ++ ".csv")
        (ofChars (joinNl ((splitOnNl sc.2.data).take 20)))
    else ctx1) ctx

/-- `DbtAutoFixer._gather_context(error)`: the ordered path→content
bundle sent to the model (a `dict` in the source; insertion order is
preserved here as list order). -/
def gatherContext (env : FixEnv) (error : DbtError) : List (String × String) :=
  let ctx : List (String × String) := []
  let ctx := if error.file_path ≠ "" then readInto env.disk ctx error.file_path else ctx
  let ctx := readInto env.disk ctx "dbt_project.yml"
  let ctx :=
    if error.file_path ≠ "" && error.file_path.startsWith "models/" then
      match splitOnChar '/' error.file_path.data with
      | _ :: p1 :: _ => readInto env.disk ctx ("models/" ++ ofChars p1 ++ "/schema.yml")
      | _ => ctx
    else ctx
  let ctx :=
    if error.category == ErrorCategory.seed_error
        || error.category == ErrorCategory.test_failure then
      readInto env.disk ctx "seeds/schema.yml"
    else ctx
  let ctx :=
    if error.file_path ≠ "" then
      let content := ((ctx.find? (fun kv => kv.1 == error.file_path)).map (fun kv => kv.2)).getD ""
      addUpstreamRefs env.disk ctx
        ((finditer refPat content.data).map (fun m => ofChars (capGet m.caps 1)))
    else ctx
  let ctx :=
    if error.category == ErrorCategory.test_failure then
      addSeedCsvs env.seedCsvs error.model_name ctx
    else ctx
  ctx

/-! ### auto_fixer.py — prompt construction -/

/-- `fpath.rsplit(".", 1)[-1]`: the text after the last dot. -/
def lastExt (s : Chars) : Chars := (s.reverse.takeWhile (fun c => c ≠ '.')).reverse

/-- The content-type hint used in `_build_prompt`. -/
def langOf (fpath : String) : String :=
  let ext := if containsSub fpath.data ".".data then ofChars (lastExt fpath.data)
             else "text"
  if ext == "sql" then "sql"
  else if ext == "yml" then "yaml"
  else if ext == "yaml" then "yaml"
  else if ext == "csv" then "csv"
  else "text"

/-- The per-error sections of `_build_prompt` (`enumerate(..., 1)`). -/
def promptSections : Nat → List (DbtError × List (String × String)) → List String
  | _, [] => []
  | i, (e, ctx) :: rest =>
    ([ "## Error " ++ toString i ++ ": " ++ e.category.val,
       "**Model/Test:** " ++ e.model_name ]
     ++ (if e.file_path ≠ "" then ["**File:** " ++ e.file_path] else [])
     ++ [ "**Message:**\n```\n" ++ e.message ++ "\n```" ]
     ++ (if e.raw_output ≠ "" && e.raw_output ≠ e.message then
           ["**Full Output:**\n```\n" ++ ofChars (takeLeft e.raw_output.data 1500) ++ "\n```"]
         else [])
     ++ [ "\n**Relevant Files:**" ]
     ++ ctx.map (fun kv =>
          "\n### " ++ kv.1 ++ "\n```" ++ langOf kv.1 ++ "\n" ++ kv.2 ++ "\n```")
     ++ [ "---\n" ])
    ++ promptSections (i + 1) rest

/-- `DbtAutoFixer._build_prompt(errors, contexts)`. -/
def buildPrompt (errors : List DbtError)
    (contexts : List (List (String × String))) : String :=
  String.intercalate "\n"
    (["# dbt Build Errors to Fix\n"]
      ++ promptSections 1 (List.zip errors contexts)
      ++ ["Please diagnose each error and provide the exact file fixes needed. "
          ++ "Remember to provide COMPLETE file contents for each fix."])

/-! ### auto_fixer.py — response parsing -/

/-- The strict response format `fix_re`:
`### FIX:\s*(.+?)\n\*\*File:\*\*\s*(.+?)\n\*\*Diagnosis:\*\*\s*(.+?)\n`
followed by a fenced block, with `re.DOTALL`. -/
def fixPat : Pat :=
  pseq [ plit "### FIX:", Pat.starG isWs, Pat.grp 1 (plusL dotAll),
         plit "\n**File:**", Pat.starG isWs, Pat.grp 2 (plusL dotAll),
         plit "\n**Diagnosis:**", Pat.starG isWs, Pat.grp 3 (plusL dotAll),
         plit "\n```",
         Pat.opt (palts [plit "sql", plit "yaml", plit "csv", plit "text"]),
         plit "\n", Pat.grp 4 (Pat.starL dotAll), plit "```" ]

/-- The lenient fallback `alt_re`:
`(?:file|path)[:\s]*` then an optional backtick, `([^`\n]+\.\w{2,4})`,
optional backtick, `\s*\n` and a fenced block — with
`re.DOTALL | re.IGNORECASE` (case-insensitive literals). -/
def altPat : Pat :=
  pseq [ Pat.alt (plitCI "file") (plitCI "path"),
         Pat.starG (fun c => c = ':' || isWs c),
         Pat.opt (Pat.lit [btickChar]),
         Pat.grp 1 (pseq [ plusG (fun c => c ≠ btickChar && c ≠ '\n'),
                           plit ".", Pat.repRange isWord 2 4 ]),
         Pat.opt (Pat.lit [btickChar]),
         Pat.starG isWs, plit "\n```",
         Pat.opt (palts [plitCI "sql", plitCI "yaml", plitCI "csv", plitCI "text"]),
         plit "\n", Pat.grp 2 (Pat.starL dotAll), plit "```" ]

/-- `DbtAutoFixer._parse_response(response)`: strict format first, then
the lenient fallback when the strict pass found nothing and the response
contains a fence; a patch whose stripped content equals the stripped
on-disk content (or is empty) is dropped. -/
def parseResponse (disk : String → Option String) (response : String) :
    List FilePatch :=
  let prim := (finditer fixPat response.data).foldl (fun acc m =>
    let desc := ofChars (stripWs (capGet m.caps 1))
    let fpath := ofChars (stripChars (fun c => c = btickChar) (stripWs (capGet m.caps 2)))
    let diag := ofChars (stripWs (capGet m.caps 3))
    let content := stripWs (capGet m.caps 4)
    let original := (disk fpath).getD ""
    if !content.isEmpty && content ≠ stripWs original.data then
      acc ++ [{ file_path := fpath, original_content := original,
                fixed_content := ofChars content ++ "\n",
                explanation := desc ++ ": " ++ diag }]
    else acc) []
  if prim.isEmpty && containsSub response.data "```".data then
    prim ++ (finditer altPat response.data).foldl (fun acc m =>
      let fpath := ofChars (stripWs (capGet m.caps 1))
      let content := stripWs (capGet m.caps 2)
      let original := (disk fpath).getD ""
      if !content.isEmpty && content ≠ stripWs original.data then
        acc ++ [{ file_path := fpath, original_content := original,
                  fixed_content := ofChars content ++ "\n",
                  explanation := "AI-generated fix" }]
      else acc) []
  else prim

/-! ### auto_fixer.py — `diagnose_and_fix` -/

/-- The fixed priority ordering:
`priority.index(e.category) if e.category in priority else 99`. -/
def priorityIndex (c : ErrorCategory) : Nat :=
  match c with
  | .yaml_parse => 0
  | .compilation => 1
  | .database => 2
  | .seed_error => 3
  | .test_failure => 4
  | .dependency => 5
  | _ => 99

/-- Stable insertion: an element is placed before the first element of
strictly greater-or-equal key that originally came later, matching
Python's stable `sorted`. -/
def insertByKey (key : DbtError → Nat) (x : DbtError) :
    List DbtError → List DbtError
  | [] => [x]
  | y :: ys => if key x ≤ key y then x :: y :: ys else y :: insertByKey key x ys

/-- Stable sort by key (Python `sorted(errors, key=...)`). -/
def sortByKey (key : DbtError → Nat) : List DbtError → List DbtError
  | [] => []
  | x :: xs => insertByKey key x (sortByKey key xs)

/-- `DbtAutoFixer.diagnose_and_fix(errors, max_errors)` (the source
default for `max_errors` is 5). -/
def diagnoseAndFix (env : FixEnv) (errors : List DbtError) (maxErrors : Nat) :
    FixResult :=
  if errors.isEmpty then { success := true, explanation := "No errors to fix." }
  else
    let sortedErrors := (sortByKey (fun e => priorityIndex e.category) errors).take maxErrors
    let contexts := sortedErrors.map (gatherContext env)
    let prompt := buildPrompt sortedErrors contexts
    match env.generate prompt systemPromptText with
    | .ok response =>
      let patches := parseResponse env.disk response
      { success := !patches.isEmpty, patches := patches,
        explanation := "Generated " ++ toString patches.length ++ " fix(es) for "
          ++ toString sortedErrors.length ++ " error(s).",
        errors_addressed := sortedErrors.length,
        errors_remaining := errors.length - sortedErrors.length }
    | .error e =>
      { success := false, explanation := "Failed to generate fixes: " ++ e }

/-- `DbtAutoFixer.apply_patches(patches)` returns the list of modified
paths, in order; the writes themselves are filesystem effects outside
the model. -/
def applyPatchPaths (patches : List FilePatch) : List String :=
  patches.map (fun p => p.file_path)

/-! ### executor.py — `DbtCliExecutor` -/

/-- `DbtCommandResult` (the wall-clock `elapsed_seconds` field is not
modelled). -/
structure DbtCommandResult where
  command : String
  success : Bool
  return_code : Int
  stdout : String
  stderr : String
deriving DecidableEq, Repr

/-- Outcome of one `subprocess.run` call: normal completion with an exit
code and captured streams, `subprocess.TimeoutExpired`, or any other
exception (caught and stringified by the source). -/
inductive ProcOutcome where
  | completed : Int → String → String → ProcOutcome
  | timedOut : ProcOutcome
  | raised : String → ProcOutcome
deriving DecidableEq, Repr

/-- Environment of the executor: the cached `shutil.which("dbt")` result
and the subprocess behaviour per invocation. -/
structure ExecEnv where
  dbtPath : Option String
  proc : List String → Nat → ProcOutcome

/-- The installation hint returned when the binary is unresolved. -/
def installHint : String :=
  "dbt CLI not found. Install via:\n"
  ++ "  brew tap dbt-labs/dbt-cli && brew install dbt\n"
  ++ "Or: pip install dbt --no-cache-dir"

def joinSpace (args : List String) : String := String.intercalate " " args

/-- `DbtCliExecutor._run(args, timeout)`: total — every outcome,
including a missing binary, a timeout, and an arbitrary exception, is
converted to a `DbtCommandResult`; nothing propagates to the caller. -/
def execRun (env : ExecEnv) (args : List String) (timeout : Nat) :
    DbtCommandResult :=
  let fullCmd := "dbt " ++ joinSpace args
  match env.dbtPath with
  | none =>
    { command := fullCmd, success := false, return_code := -1,
      stdout := "", stderr := installHint }
  | some _ =>
    match env.proc args timeout with
    | .completed rc out err =>
      { command := fullCmd, success := rc == 0, return_code := rc,
        stdout := out, stderr := err }
    | .timedOut =>
      { command := fullCmd, success := false, return_code := -2,
        stdout := "",
        stderr := "Command timed out after " ++ toString timeout ++ "s" }
    | .raised msg =>
      { command := fullCmd, success := false, return_code := -3,
        stdout := "", stderr := msg }

/-- `DbtCliExecutor.build(full_refresh=True)` as invoked by the
validator: `dbt build --full-refresh`, timeout 600. -/
def execBuild (env : ExecEnv) : DbtCommandResult :=
  execRun env ["build", "--full-refresh"] 600

/-! ### build_validator.py — data structures -/

/-- `BuildAttempt` (full log capture; statuses are the source's string
literals `pending | building | fixing | fixed | success | failed`). -/
structure BuildAttempt where
  attempt_number : Nat
  command_result : Option DbtCommandResult := none
  errors : List DbtError := []
  fixes_applied : List FilePatch := []
  status : String := "pending"
  logs : String := ""
deriving DecidableEq, Repr

/-- `BuildResult` (the wall-clock `elapsed_seconds` field is not
modelled). -/
structure BuildResult where
  success : Bool
  total_attempts : Nat
  attempts : List BuildAttempt := []
  final_errors : List DbtError := []
  files_modified : List String := []
  message : String := ""
  project_dir : String := ""
  cli_info : List (String × String) := []
  pushed_to_github : Bool := false
deriving DecidableEq, Repr

/-- Environment of one `BuildValidator.validate` run.  Each external
effect is an oracle: `buildProc num` is the subprocess outcome of the
`dbt build` of attempt `num`; `fixEnv num` is the auto-fixer's view of
the world (disk state, seed listing, generative backend) at attempt
`num` (the disk evolves as patches are applied, so it is indexed by
attempt); `push label` is the outcome of `_push_fixes` called with that
attempt label (`"1"`, `"2"`, … or `"final"`).  `versionInfo` stands for
the probe `executor.get_version_info()` used only as display metadata. -/
structure ValEnv where
  dbtPath : Option String
  versionInfo : List (String × String)
  maxAttempts : Nat
  projectDir : String
  buildProc : Nat → ProcOutcome
  fixEnv : Nat → FixEnv
  push : String → Bool

/-- Python truthiness of an optional string argument
(`bool(github_token and github_repo_url)`). -/
def truthy : Option String → Bool
  | some s => !s.isEmpty
  | none => false

/-- The build `DbtCommandResult` of attempt `num`: the executor run with
the cached binary path and that attempt's subprocess outcome. -/
def buildResultAt (env : ValEnv) (num : Nat) : DbtCommandResult :=
  execBuild { dbtPath := env.dbtPath, proc := fun _ _ => env.buildProc num }

/-- The false-positive rule of the loop (build_validator lines 238–243):
`apparent_success = result.success` and then forced to `False` when
`has_error_indicators` fires on the output. -/
def apparentSuccess (r : DbtCommandResult) : Bool :=
  r.success && !hasErrorIndicators r.stdout r.stderr

/-- The per-attempt log capture (stdout/stderr sections included only
when non-empty; the wall-clock `Elapsed:` line is not modelled). -/
def attemptLogs (r : DbtCommandResult) : String :=
  String.intercalate "\n"
    (["$ " ++ r.command, "Exit code: " ++ toString r.return_code, ""]
      ++ (if r.stdout ≠ "" then ["--- stdout ---", r.stdout] else [])
      ++ (if r.stderr ≠ "" then ["--- stderr ---", r.stderr] else []))

/-- The synthetic error created when the build failed but parsing found
nothing (the source passes the raw string `"unknown"` as the category of
this one error; as a `str` enum value it equals
`ErrorCategory.UNKNOWN`). -/
def syntheticUnknown (r : DbtCommandResult) : DbtError :=
  { category := .unknown,
    message := ofChars (extractContext (r.stdout.data ++ '\n' :: r.stderr.data)),
    raw_output := ofChars (takeRight (r.stdout.data ++ '\n' :: r.stderr.data) 3000) }

/-- The post-loop failure `BuildResult` (also produced by the two `break`
paths of the loop). -/
def failResult (env : ValEnv) (cliInfo : List (String × String))
    (attempts : List BuildAttempt) (allModified : List String)
    (pushed : Bool) : BuildResult :=
  let finalErrors :=
    match attempts.getLast? with
    | some a => a.errors
    | none => []
  { success := false, total_attempts := attempts.length, attempts := attempts,
    final_errors := finalErrors, files_modified := allModified,
    message := "Build failed after " ++ toString attempts.length
      ++ " attempt(s) with " ++ toString finalErrors.length ++ " error(s).",
    project_dir := env.projectDir, cli_info := cliInfo,
    pushed_to_github := pushed }

/-- The attempt numbers `range(1, max_attempts + 1)` starting at `s`. -/
def attemptNums : Nat → Nat → List Nat
  | _, 0 => []
  | s, n + 1 => s :: attemptNums (s + 1) n

/-- The errors recorded for a failed attempt: the parse of the build
output, with one synthetic error when parsing found nothing
(build_validator lines 274–285). -/
def attemptErrors (r : DbtCommandResult) : List DbtError :=
  let parsed := parse r.stdout r.stderr
  if parsed.isEmpty then [syntheticUnknown r] else parsed

/-- The fixer call of attempt `num`:
`self.fixer.diagnose_and_fix(errors)` with the default `max_errors = 5`. -/
def fixAttempt (env : ValEnv) (num : Nat) (r : DbtCommandResult) : FixResult :=
  diagnoseAndFix (env.fixEnv num) (attemptErrors r) 5

/-- The `for num in range(1, max_attempts + 1)` loop of
`BuildValidator.validate`, carrying the Python locals `attempts`,
`all_modified` and `pushed`.  Each iteration: run the build, capture
logs, apply the false-positive conjunction; on apparent success perform
the mandatory final push (when pushing is configured and files were
modified) and return success; otherwise parse errors (synthesising one
when empty), stop with status `failed` on the last allowed attempt or
when the fixer makes no progress, and otherwise record the patches,
accumulate modified paths, push best-effort, mark `fixed` and continue. -/
def buildLoop (env : ValEnv) (canPush : Bool) (cliInfo : List (String × String)) :
    List Nat → List BuildAttempt → List String → Bool → BuildResult
  | [], attempts, allModified, pushed =>
    failResult env cliInfo attempts allModified pushed
  | num :: rest, attempts, allModified, pushed =>
    let result := buildResultAt env num
    let logs := attemptLogs result
    if apparentSuccess result then
      let attempt : BuildAttempt :=
        { attempt_number := num, command_result := some result,
          status := "success", logs := logs }
      let pushed2 := if canPush && !allModified.isEmpty then env.push "final"
                     else pushed
      { success := true, total_attempts := num,
        attempts := attempts ++ [attempt],
        files_modified := allModified,
        message := "Build passed on attempt " ++ toString num ++ "."
          ++ (if pushed2 then " Fixes pushed to GitHub." else ""),
        project_dir := env.projectDir, cli_info := cliInfo,
        pushed_to_github := pushed2 }
    else
      let errors := attemptErrors result
      if env.maxAttempts ≤ num then
        let attempt : BuildAttempt :=
          { attempt_number := num, command_result := some result,
            errors := errors, status := "failed", logs := logs }
        failResult env cliInfo (attempts ++ [attempt]) allModified pushed
      else
        let fixResult := fixAttempt env num result
        if !fixResult.success || fixResult.patches.isEmpty then
          let attempt : BuildAttempt :=
            { attempt_number := num, command_result := some result,
              errors := errors, status := "failed",
              logs := logs ++ "\n\n--- AI Fix Result ---\n" ++ fixResult.explanation }
          failResult env cliInfo (attempts ++ [attempt]) allModified pushed
        else
          let modified := applyPatchPaths fixResult.patches
          let pushed2 := if canPush then pushed || env.push (toString num) else pushed
          let attempt : BuildAttempt :=
            { attempt_number := num, command_result := some result,
              errors := errors, fixes_applied := fixResult.patches,
              status := "fixed", logs := logs }
          buildLoop env canPush cliInfo rest (attempts ++ [attempt])
            (allModified ++ modified) pushed2

/-- The pre-flight failure message of `validate`. -/
def cliMissingMsg : String :=
  "dbt Cloud CLI not found. Install it via:\n"
  ++ "  brew tap dbt-labs/dbt-cli && brew install dbt\n"
  ++ "Or: pip install dbt --no-cache-dir\n\n"
  ++ "See: https://docs.getdbt.com/docs/cloud/cloud-cli-installation"

/-- `BuildValidator.validate(generated_files, github_token,
github_repo_url)`.  The pre-loop filesystem steps (`_ensure_gitignore`,
`_write_files`, `setup_cloud_config`), the branch probe `_detect_branch`
(feeding only `_push_fixes`, abstracted by `env.push`), the `dbt deps`
install and the seed pre-check only log progress and leave no trace in
the returned `BuildResult`, so they are not modelled as state. -/
def validate (env : ValEnv) (githubToken githubRepoUrl : Option String) :
    BuildResult :=
  let canPush := truthy githubToken && truthy githubRepoUrl
  let cliAvailable := env.dbtPath.isSome
  let cliInfo := if cliAvailable then env.versionInfo else [("type", "not_found")]
  if !cliAvailable then
    { success := false, total_attempts := 0, message := cliMissingMsg,
      project_dir := env.projectDir, cli_info := cliInfo }
  else
    buildLoop env canPush cliInfo (attemptNums 1 env.maxAttempts) [] [] false

/-! ### Concrete environments used by witnesses and counterexamples -/

/-- Default used with `List.getD` when indexing attempt lists. -/
def dummyAttempt : BuildAttempt := { attempt_number := 0 }

/-- A fixer environment whose backend always answers with one
well-formed fix for `models/m1.sql`. -/
def fixEnvOk : FixEnv :=
  { disk := fun _ => none, seedCsvs := [],
    generate := fun _ _ =>
      .ok ("### FIX: correct ref\n**File:** models/m1.sql\n"
        ++ "**Diagnosis:** wrong ref\n```sql\nselect 1\n```") }

/-- A run whose first build fails with a compilation error, is fixed,
and whose second build passes; pushes always fail. -/
def envFixThenPass : ValEnv :=
  { dbtPath := some "/usr/local/bin/dbt", versionInfo := [("type", "cloud_cli")],
    maxAttempts := 3, projectDir := "/tmp/proj",
    buildProc := fun n =>
      if n == 1 then
        .completed 1 "Compilation Error in model m1 (models/m1.sql)\nbad ref" ""
      else .completed 0 "ok" "",
    fixEnv := fun _ => fixEnvOk,
    push := fun _ => false }

/-- A run whose first two builds fail with the same compilation error
(each fixed by a patch to the same file) and whose third build passes. -/
def envTwoFixes : ValEnv :=
  { envFixThenPass with
    buildProc := fun n =>
      if n ≤ 2 then
        .completed 1 "Compilation Error in model m1 (models/m1.sql)\nbad ref" ""
      else .completed 0 "ok" "" }

/-- A run with a single allowed attempt whose build always fails. -/
def envAlwaysFail : ValEnv :=
  { envFixThenPass with
    maxAttempts := 1,
    buildProc := fun _ =>
      .completed 1 "Compilation Error in model m1 (models/m1.sql)\nbad ref" "" }

/-- An executor whose binary resolution failed. -/
def execEnvNoDbt : ExecEnv :=
  { dbtPath := none, proc := fun _ _ => .completed 0 "" "" }

/-- An executor whose subprocess always times out. -/
def execEnvTimeout : ExecEnv :=
  { dbtPath := some "/usr/local/bin/dbt", proc := fun _ _ => .timedOut }

/-- The exit-0 command result whose stdout carries the seed-loading
summary error line. -/
def seedSummaryResult : DbtCommandResult :=
  { command := "dbt build --full-refresh", success := true, return_code := 0,
    stdout := "3 of 30 ERROR loading seed seed_x", stderr := "" }

/-- A sample structured error for fixer witnesses. -/
def sampleError : DbtError :=
  { category := .compilation, model_name := "m1",
    file_path := "models/m1.sql", message := "bad ref" }

/-! ## Helper lemmas about the attempt loop -/

theorem attemptNums_length (s n : Nat) : (attemptNums s n).length = n := by
  induction n generalizing s with
  | zero => rfl
  | succ n ih => simp [attemptNums, ih]

/-- The loop only appends to the attempt history. -/
theorem buildLoop_attempts_shape (env : ValEnv) (cp : Bool)
    (ci : List (String × String)) :
    ∀ (nums : List Nat) (atts : List BuildAttempt) (m : List String) (p : Bool),
    ∃ tail, (buildLoop env cp ci nums atts m p).attempts = atts ++ tail
      ∧ tail.length ≤ nums.length := by
  intro nums
  induction nums with
  | nil =>
    intro atts m p
    exact ⟨[], by simp [buildLoop, failResult]⟩
  | cons num rest ih =>
    intro atts m p
    simp only [buildLoop]
    by_cases h1 : apparentSuccess (buildResultAt env num) = true
    · rw [if_pos h1]
      exact ⟨_, rfl, by simp⟩
    · rw [if_neg h1]
      by_cases h2 : env.maxAttempts ≤ num
      · rw [if_pos h2]
        exact ⟨_, rfl, by simp⟩
      · rw [if_neg h2]
        by_cases h3 : (!(fixAttempt env num (buildResultAt env num)).success
            || (fixAttempt env num (buildResultAt env num)).patches.isEmpty) = true
        · rw [if_pos h3]
          exact ⟨_, rfl, by simp⟩
        · rw [if_neg h3]
          obtain ⟨tail, ht, hl⟩ := ih
            (atts ++ [⟨num, some (buildResultAt env num),
              attemptErrors (buildResultAt env num),
              (fixAttempt env num (buildResultAt env num)).patches, "fixed",
              attemptLogs (buildResultAt env num)⟩])
            (m ++ applyPatchPaths (fixAttempt env num (buildResultAt env num)).patches)
            (if cp = true then p || env.push (toString num) else p)
          rw [List.append_assoc] at ht
          exact ⟨_, ht, by simpa using Nat.succ_le_succ hl⟩

@[simp] theorem failResult_attempts (env : ValEnv) (ci : List (String × String))
    (atts : List BuildAttempt) (m : List String) (p : Bool) :
    (failResult env ci atts m p).attempts = atts := rfl

@[simp] theorem failResult_success (env : ValEnv) (ci : List (String × String))
    (atts : List BuildAttempt) (m : List String) (p : Bool) :
    (failResult env ci atts m p).success = false := rfl

@[simp] theorem failResult_files (env : ValEnv) (ci : List (String × String))
    (atts : List BuildAttempt) (m : List String) (p : Bool) :
    (failResult env ci atts m p).files_modified = m := rfl

@[simp] theorem failResult_pushed (env : ValEnv) (ci : List (String × String))
    (atts : List BuildAttempt) (m : List String) (p : Bool) :
    (failResult env ci atts m p).pushed_to_github = p := rfl

theorem buildLoop_nil (env : ValEnv) (cp : Bool) (ci : List (String × String))
    (atts : List BuildAttempt) (m : List String) (p : Bool) :
    buildLoop env cp ci [] atts m p = failResult env ci atts m p := rfl

/-- The accumulated `all_modified` list is exactly the concatenation of
the per-attempt patched paths. -/
theorem buildLoop_files (env : ValEnv) (cp : Bool) (ci : List (String × String)) :
    ∀ (nums : List Nat) (atts : List BuildAttempt) (m : List String) (p : Bool),
    ∃ tail, (buildLoop env cp ci nums atts m p).attempts = atts ++ tail
      ∧ (buildLoop env cp ci nums atts m p).files_modified
          = m ++ (tail.map (fun a => a.fixes_applied.map (fun q => q.file_path))).flatten := by
  intro nums
  induction nums with
  | nil =>
    intro atts m p
    exact ⟨[], by simp [buildLoop_nil]⟩
  | cons num rest ih =>
    intro atts m p
    simp only [buildLoop]
    by_cases h1 : apparentSuccess (buildResultAt env num) = true
    · rw [if_pos h1]
      exact ⟨_, rfl, by simp⟩
    · rw [if_neg h1]
      by_cases h2 : env.maxAttempts ≤ num
      · rw [if_pos h2]
        exact ⟨_, rfl, by simp⟩
      · rw [if_neg h2]
        by_cases h3 : (!(fixAttempt env num (buildResultAt env num)).success
            || (fixAttempt env num (buildResultAt env num)).patches.isEmpty) = true
        · rw [if_pos h3]
          exact ⟨_, rfl, by simp⟩
        · rw [if_neg h3]
          obtain ⟨tail, ht, hf⟩ := ih
            (atts ++ [⟨num, some (buildResultAt env num),
              attemptErrors (buildResultAt env num),
              (fixAttempt env num (buildResultAt env num)).patches, "fixed",
              attemptLogs (buildResultAt env num)⟩])
            (m ++ applyPatchPaths (fixAttempt env num (buildResultAt env num)).patches)
            (if cp = true then p || env.push (toString num) else p)
          rw [List.append_assoc] at ht
          refine ⟨_, ht, ?_⟩
          rw [hf]
          simp [applyPatchPaths, List.append_assoc]

theorem getD_snoc_numbering (atts : List BuildAttempt) (a : BuildAttempt)
    (h : ∀ i, i < atts.length → (atts.getD i dummyAttempt).attempt_number = i + 1)
    (ha : a.attempt_number = atts.length + 1) :
    ∀ i, i < (atts ++ [a]).length →
      ((atts ++ [a]).getD i dummyAttempt).attempt_number = i + 1 := by
  intro i hi
  rcases Nat.lt_or_ge i atts.length with hlt | hge
  · rw [List.getD_append _ _ _ _ hlt]
    exact h i hlt
  · have hie : i = atts.length := by
      simp only [List.length_append, List.length_singleton] at hi
      omega
    subst hie
    rw [List.getD_append_right _ _ _ _ (le_refl _)]
    simpa using ha

/-- Attempt numbering invariant of the loop: starting from a correctly
numbered prefix with the next attempt number, every recorded attempt
keeps `attempt_number = index + 1`. -/
theorem buildLoop_numbering (env : ValEnv) (cp : Bool) (ci : List (String × String)) :
    ∀ (k s : Nat) (atts : List BuildAttempt) (m : List String) (p : Bool),
    s = atts.length + 1 →
    (∀ i, i < atts.length → (atts.getD i dummyAttempt).attempt_number = i + 1) →
    ∀ i, i < (buildLoop env cp ci (attemptNums s k) atts m p).attempts.length →
      ((buildLoop env cp ci (attemptNums s k) atts m p).attempts.getD i
        dummyAttempt).attempt_number = i + 1 := by
  intro k
  induction k with
  | zero =>
    intro s atts m p hs h i hi
    simp only [attemptNums, buildLoop_nil, failResult_attempts] at hi ⊢
    exact h i hi
  | succ k ih =>
    intro s atts m p hs h
    simp only [attemptNums, buildLoop]
    by_cases h1 : apparentSuccess (buildResultAt env s) = true
    · rw [if_pos h1]
      intro i hi
      exact getD_snoc_numbering atts _ h hs i (by simpa using hi)
    · rw [if_neg h1]
      by_cases h2 : env.maxAttempts ≤ s
      · rw [if_pos h2]
        intro i hi
        exact getD_snoc_numbering atts _ h hs i (by simpa using hi)
      · rw [if_neg h2]
        by_cases h3 : (!(fixAttempt env s (buildResultAt env s)).success
            || (fixAttempt env s (buildResultAt env s)).patches.isEmpty) = true
        · rw [if_pos h3]
          intro i hi
          exact getD_snoc_numbering atts _ h hs i (by simpa using hi)
        · rw [if_neg h3]
          have hnum : (⟨s, some (buildResultAt env s),
              attemptErrors (buildResultAt env s),
              (fixAttempt env s (buildResultAt env s)).patches, "fixed",
              attemptLogs (buildResultAt env s)⟩ : BuildAttempt).attempt_number
              = atts.length + 1 := hs
          exact ih (s + 1) (atts ++ [_]) _ _
            (by simp [hs]) (getD_snoc_numbering atts _ h hnum)

/-- In a run that ends in failure, the last recorded attempt has status
`"failed"` — provided the loop is entered (`1 ≤ k`) and cannot run out
of numbers before hitting the last-attempt check
(`maxAttempts ≤ atts.length + k`, as in `validate`). -/
theorem buildLoop_last_failed (env : ValEnv) (cp : Bool) (ci : List (String × String)) :
    ∀ (k s : Nat) (atts : List BuildAttempt) (m : List String) (p : Bool),
    1 ≤ k → s = atts.length + 1 → env.maxAttempts ≤ atts.length + k →
    (buildLoop env cp ci (attemptNums s k) atts m p).success = false →
    ∀ a, (buildLoop env cp ci (attemptNums s k) atts m p).attempts.getLast? = some a →
    a.status = "failed" := by
  intro k
  induction k with
  | zero => intro s atts m p hk; omega
  | succ k ih =>
    intro s atts m p hk hs hmax
    simp only [attemptNums, buildLoop]
    by_cases h1 : apparentSuccess (buildResultAt env s) = true
    · rw [if_pos h1]
      intro hsucc
      simp at hsucc
    · rw [if_neg h1]
      by_cases h2 : env.maxAttempts ≤ s
      · rw [if_pos h2]
        intro _ a ha
        rw [failResult_attempts, List.getLast?_concat] at ha
        cases ha
        rfl
      · rw [if_neg h2]
        by_cases h3 : (!(fixAttempt env s (buildResultAt env s)).success
            || (fixAttempt env s (buildResultAt env s)).patches.isEmpty) = true
        · rw [if_pos h3]
          intro _ a ha
          rw [failResult_attempts, List.getLast?_concat] at ha
          cases ha
          rfl
        · rw [if_neg h3]
          have hk1 : 1 ≤ k := by omega
          exact ih (s + 1) (atts ++ [_]) _ _ hk1 (by simp [hs]) (by simp; omega)

/-- On a successful run (with pushing configured) whose accumulated
modified-file list is non-empty, the reported `pushed_to_github` flag is
exactly the outcome of the mandatory final push. -/
theorem buildLoop_success_pushed (env : ValEnv) (ci : List (String × String)) :
    ∀ (nums : List Nat) (atts : List BuildAttempt) (m : List String) (p : Bool),
    (buildLoop env true ci nums atts m p).success = true →
    (buildLoop env true ci nums atts m p).files_modified ≠ [] →
    (buildLoop env true ci nums atts m p).pushed_to_github = env.push "final" := by
  intro nums
  induction nums with
  | nil =>
    intro atts m p hsucc
    simp [buildLoop_nil] at hsucc
  | cons num rest ih =>
    intro atts m p
    simp only [buildLoop]
    by_cases h1 : apparentSuccess (buildResultAt env num) = true
    · rw [if_pos h1]
      intro _ hf
      have hm : m ≠ [] := hf
      have hne : m.isEmpty = false := by
        cases m with
        | nil => exact absurd rfl hm
        | cons a l => rfl
      simp [hne]
    · rw [if_neg h1]
      by_cases h2 : env.maxAttempts ≤ num
      · rw [if_pos h2]
        intro hsucc
        simp at hsucc
      · rw [if_neg h2]
        by_cases h3 : (!(fixAttempt env num (buildResultAt env num)).success
            || (fixAttempt env num (buildResultAt env num)).patches.isEmpty) = true
        · rw [if_pos h3]
          intro hsucc
          simp at hsucc
        · rw [if_neg h3]
          exact ih _ _ _

@[simp] theorem setPush_push (env : ValEnv) (f : String → Bool) :
    ({env with push := f} : ValEnv).push = f := rfl

theorem buildResultAt_setPush (env : ValEnv) (f : String → Bool) (num : Nat) :
    buildResultAt {env with push := f} num = buildResultAt env num := rfl

theorem fixAttempt_setPush (env : ValEnv) (f : String → Bool) (num : Nat)
    (r : DbtCommandResult) :
    fixAttempt {env with push := f} num r = fixAttempt env num r := rfl

theorem failResult_setPush (env : ValEnv) (f : String → Bool)
    (ci : List (String × String)) (atts : List BuildAttempt)
    (m : List String) (p : Bool) :
    failResult {env with push := f} ci atts m p = failResult env ci atts m p := rfl

@[simp] theorem setPush_maxAttempts (env : ValEnv) (f : String → Bool) :
    ({env with push := f} : ValEnv).maxAttempts = env.maxAttempts := rfl

@[simp] theorem setPush_dbtPath (env : ValEnv) (f : String → Bool) :
    ({env with push := f} : ValEnv).dbtPath = env.dbtPath := rfl

/-- The push oracle never influences success, the attempt history or the
modified-file list — only the `pushed` flag (and the human message). -/
theorem buildLoop_push_inv (env : ValEnv) (f g : String → Bool) (cp : Bool)
    (ci : List (String × String)) :
    ∀ (nums : List Nat) (atts : List BuildAttempt) (m : List String) (p q : Bool),
    ((buildLoop {env with push := f} cp ci nums atts m p).success
      = (buildLoop {env with push := g} cp ci nums atts m q).success)
    ∧ ((buildLoop {env with push := f} cp ci nums atts m p).attempts
      = (buildLoop {env with push := g} cp ci nums atts m q).attempts)
    ∧ ((buildLoop {env with push := f} cp ci nums atts m p).files_modified
      = (buildLoop {env with push := g} cp ci nums atts m q).files_modified) := by
  intro nums
  induction nums with
  | nil => intro atts m p q; exact ⟨rfl, rfl, rfl⟩
  | cons num rest ih =>
    intro atts m p q
    simp only [buildLoop, buildResultAt_setPush, fixAttempt_setPush,
      failResult_setPush, setPush_maxAttempts, setPush_push]
    by_cases h1 : apparentSuccess (buildResultAt env num) = true
    · rw [if_pos h1, if_pos h1]
      exact ⟨rfl, rfl, rfl⟩
    · rw [if_neg h1, if_neg h1]
      by_cases h2 : env.maxAttempts ≤ num
      · rw [if_pos h2, if_pos h2]
        exact ⟨rfl, rfl, rfl⟩
      · rw [if_neg h2, if_neg h2]
        by_cases h3 : (!(fixAttempt env num (buildResultAt env num)).success
            || (fixAttempt env num (buildResultAt env num)).patches.isEmpty) = true
        · rw [if_pos h3, if_pos h3]
          exact ⟨rfl, rfl, rfl⟩
        · rw [if_neg h3, if_neg h3]
          exact ih _ _ _ _

/-! ## Claims -/

/-- C1: in the validation loop, apparent success is exactly the
conjunction of the exit-code-derived success flag with the absence of
error indicators: any `CommandResult` whose combined output contains a
fixed indicator substring, or a line matching the summary error pattern,
is treated as a failure even with exit success; exit success with no
indicator is treated as a success; and the first attempt of a run is
recorded with status `"success"` precisely when its build result is
apparently successful. -/
theorem claim_C1_apparent_success_conjunction :
    (∀ r : DbtCommandResult,
        apparentSuccess r = (r.success && !hasErrorIndicators r.stdout r.stderr))
    ∧ (∀ (r : DbtCommandResult) (ind : String), ind ∈ errorIndicators →
        containsSub (r.stdout.data ++ '\n' :: r.stderr.data) ind.data = true →
        apparentSuccess r = false)
    ∧ (∀ r : DbtCommandResult,
        (searchPat summaryErrorPat (r.stdout.data ++ '\n' :: r.stderr.data)).isSome = true →
        apparentSuccess r = false)
    ∧ (∀ r : DbtCommandResult, r.success = true →
        hasErrorIndicators r.stdout r.stderr = false → apparentSuccess r = true)
    ∧ (∀ (env : ValEnv) (t u : Option String) (path : String),
        env.dbtPath = some path → 1 ≤ env.maxAttempts →
        ((((validate env t u).attempts.getD 0 dummyAttempt).status = "success")
          ↔ apparentSuccess (buildResultAt env 1) = true)) := by
  refine ⟨fun r => rfl, ?_, ?_, ?_, ?_⟩
  · intro r ind hmem hsub
    have hind : hasErrorIndicators r.stdout r.stderr = true := by
      unfold hasErrorIndicators
      simp only [Bool.or_eq_true]
      exact Or.inl (List.any_eq_true.mpr ⟨ind, hmem, hsub⟩)
    unfold apparentSuccess
    simp [hind]
  · intro r hsum
    have hind : hasErrorIndicators r.stdout r.stderr = true := by
      unfold hasErrorIndicators
      simp only [Bool.or_eq_true]
      exact Or.inr hsum
    unfold apparentSuccess
    simp [hind]
  · intro r hs hind
    unfold apparentSuccess
    simp [hs, hind]
  · intro env t u path hd hmax
    obtain ⟨k, hk⟩ : ∃ k, env.maxAttempts = k + 1 := ⟨env.maxAttempts - 1, by omega⟩
    simp only [validate]
    rw [if_neg (by rw [hd]; simp), hk]
    simp only [attemptNums, buildLoop]
    by_cases h1 : apparentSuccess (buildResultAt env 1) = true
    · rw [if_pos h1]
      simp [h1]
    · rw [if_neg h1]
      refine iff_of_false ?_ h1
      by_cases h2 : env.maxAttempts ≤ 1
      · rw [if_pos h2]
        simp only [failResult_attempts, List.nil_append, List.getD_cons_zero]
        decide
      · rw [if_neg h2]
        by_cases h3 : (!(fixAttempt env 1 (buildResultAt env 1)).success
            || (fixAttempt env 1 (buildResultAt env 1)).patches.isEmpty) = true
        · rw [if_pos h3]
          simp only [failResult_attempts, List.nil_append, List.getD_cons_zero]
          decide
        · rw [if_neg h3]
          obtain ⟨tail, ht, _⟩ := buildLoop_attempts_shape env
            (truthy t && truthy u)
            (if env.dbtPath.isSome = true then env.versionInfo
             else [("type", "not_found")])
            (attemptNums 2 k)
            ([] ++ [⟨1, some (buildResultAt env 1),
              attemptErrors (buildResultAt env 1),
              (fixAttempt env 1 (buildResultAt env 1)).patches, "fixed",
              attemptLogs (buildResultAt env 1)⟩])
            ([] ++ applyPatchPaths (fixAttempt env 1 (buildResultAt env 1)).patches)
            (if (truthy t && truthy u) = true then false || env.push (toString 1) else false)
          rw [ht]
          simp only [List.nil_append, List.cons_append, List.getD_cons_zero]
          decide

/-- C1 witness: an exit-0 result whose stdout contains the indicator
`"ERROR loading seed"` is treated as a failure. -/
theorem claim_C1_witness :
    ("ERROR loading seed" ∈ errorIndicators)
    ∧ containsSub (seedSummaryResult.stdout.data ++ '\n' :: seedSummaryResult.stderr.data)
        "ERROR loading seed".data = true
    ∧ seedSummaryResult.success = true
    ∧ apparentSuccess seedSummaryResult = false :=
  ⟨by decide, by decide, rfl,
    claim_C1_apparent_success_conjunction.2.1 seedSummaryResult "ERROR loading seed"
      (by decide) (by decide)⟩

/-- When nothing matched, the fallback emits a synthetic error whenever
the combined text contains `"ERROR"` or `"FAIL"` and additionally a
connection keyword (lowercased) or the substring `"Error"`. -/
theorem fallbackErrors_ne_nil (combined : Chars) (errs : List DbtError)
    (h1 : containsSub combined "ERROR".data = true
      ∨ containsSub combined "FAIL".data = true)
    (h2 : connKeywords.any (fun kw => containsSub (lowerChars combined) kw.data) = true
      ∨ containsSub combined "Error".data = true) :
    fallbackErrors combined errs ≠ [] := by
  unfold fallbackErrors
  cases errs with
  | cons e es => simp
  | nil =>
    have hcond : (([] : List DbtError).isEmpty
        && (containsSub combined "ERROR".data || containsSub combined "FAIL".data)) = true := by
      simp only [List.isEmpty_nil, Bool.true_and, Bool.or_eq_true]
      exact h1
    rw [if_pos hcond]
    cases hconn : connKeywords.any (fun kw => containsSub (lowerChars combined) kw.data) with
    | true => simp [hconn]
    | false =>
      have hErr : containsSub combined "Error".data = true := by
        rcases h2 with h | h
        · rw [hconn] at h; cases h
        · exact h
      simp [hconn, hErr]

/-- C2 (counterexample): the combined output `"Some Error occurred"`
contains the literal substring `"Error"`, yet `parse` returns the empty
list — the fallback only fires on the uppercase `"ERROR"` or `"FAIL"`. -/
theorem claim_C2_counterexample :
    containsSub ("Some Error occurred".data ++ '\n' :: "".data) "Error".data = true
    ∧ parse "Some Error occurred" "" = [] := by decide

/-- C2 (amended): parse never returns an empty list when the combined
output contains `"ERROR"` or `"FAIL"` *and* additionally contains a
connection keyword (in the lowercased text) or the substring `"Error"`;
the bare substrings `"Error"` or `"FAIL"` alone do not guarantee a
non-empty result. -/
theorem claim_C2_parser_totality_amended :
    ∀ (stdout stderr : String),
    (containsSub (stdout.data ++ '\n' :: stderr.data) "ERROR".data = true
      ∨ containsSub (stdout.data ++ '\n' :: stderr.data) "FAIL".data = true) →
    (connKeywords.any (fun kw =>
        containsSub (lowerChars (stdout.data ++ '\n' :: stderr.data)) kw.data) = true
      ∨ containsSub (stdout.data ++ '\n' :: stderr.data) "Error".data = true) →
    parse stdout stderr ≠ [] := by
  intro stdout stderr h1 h2
  exact fallbackErrors_ne_nil _ _ h1 h2

/-- C2 witness: output containing `"ERROR"` and `"Error"` parses to a
non-empty error list. -/
theorem claim_C2_witness : parse "ERROR: bad Error happened" "" ≠ [] :=
  claim_C2_parser_totality_amended "ERROR: bad Error happened" ""
    (Or.inl (by decide)) (Or.inr (by decide))

/-- C3: on exit 0 with stdout `"3 of 30 ERROR loading seed seed_x"`,
the attempt is indeed treated as a failure (`has_error_indicators`
fires, so apparent success is false), but `parse` attributes the summary
line to the node `"loading"` — the first non-space token after `ERROR` —
with category `unknown`, not to `seed_x`: the result-line pattern, unlike
the summary pattern next to it, does not skip the `loading`/`seed file`
words. -/
theorem claim_C3_seed_summary_divergence :
    hasErrorIndicators "3 of 30 ERROR loading seed seed_x" "" = true
    ∧ apparentSuccess seedSummaryResult = false
    ∧ parse "3 of 30 ERROR loading seed seed_x" ""
        = [{ category := .unknown, model_name := "loading",
             message := "ERROR: loading", raw_output := "3 of 30 ERROR loading" }] := by
  decide

/-- C4 (counterexample): a run whose first two attempts each patch
`models/m1.sql` and whose third build succeeds reports that path twice
in `files_modified` — the accumulated list is extended, never
deduplicated, so it is not a union containing each path exactly once. -/
theorem claim_C4_counterexample :
    (validate envTwoFixes none none).success = true
    ∧ (validate envTwoFixes none none).files_modified
        = ["models/m1.sql", "models/m1.sql"] := by decide

/-- C4 (amended): `files_modified` is the concatenation, in attempt
order, of the patched file paths of each attempt
(`attempts[i].fixes_applied`); a path patched in several attempts
appears once per patch, not once overall. -/
theorem claim_C4_files_modified_amended :
    ∀ (env : ValEnv) (t u : Option String),
    (validate env t u).files_modified
      = ((validate env t u).attempts.map
          (fun a => a.fixes_applied.map (fun q => q.file_path))).flatten := by
  intro env t u
  simp only [validate]
  by_cases hd : env.dbtPath.isSome = true
  · rw [if_neg (by simp [hd])]
    obtain ⟨tail, ht, hf⟩ := buildLoop_files env
      (truthy t && truthy u)
      (if env.dbtPath.isSome = true then env.versionInfo
       else [("type", "not_found")])
      (attemptNums 1 env.maxAttempts) [] [] false
    rw [ht, hf]
    simp
  · have hf : env.dbtPath.isSome = false := by simpa using hd
    rw [if_pos (by rw [hf]; rfl)]
    rfl

/-- C5: in every `BuildResult` returned by `validate`, the recorded
attempts are numbered `attempts[i].attempt_number = i + 1`, and the
number of attempts never exceeds `max_attempts`. -/
theorem claim_C5_attempt_monotonicity :
    ∀ (env : ValEnv) (t u : Option String),
    (∀ i, i < (validate env t u).attempts.length →
      (((validate env t u).attempts.getD i dummyAttempt).attempt_number = i + 1))
    ∧ (validate env t u).attempts.length ≤ env.maxAttempts := by
  intro env t u
  simp only [validate]
  by_cases hd : env.dbtPath.isSome = true
  case neg =>
    have hf : env.dbtPath.isSome = false := by simpa using hd
    rw [if_pos (by rw [hf]; rfl)]
    refine ⟨?_, by simp⟩
    intro i hi
    simp at hi
  case pos =>
    rw [if_neg (by simp [hd])]
    constructor
    · exact buildLoop_numbering env _ _ env.maxAttempts 1 [] [] false rfl
        (fun i hi => absurd hi (by simp))
    · obtain ⟨tail, ht, hl⟩ := buildLoop_attempts_shape env
        (truthy t && truthy u)
        (if env.dbtPath.isSome = true then env.versionInfo
         else [("type", "not_found")])
        (attemptNums 1 env.maxAttempts) [] [] false
      rw [ht]
      simpa [attemptNums_length] using hl

/-- C5 witness: the fix-then-pass run records its first attempt with
number 1 and stays within the attempt budget. -/
theorem claim_C5_witness :
    0 < (validate envFixThenPass none none).attempts.length
    ∧ ((validate envFixThenPass none none).attempts.getD 0 dummyAttempt).attempt_number = 1
    ∧ (validate envFixThenPass none none).attempts.length ≤ envFixThenPass.maxAttempts :=
  ⟨by decide,
   (claim_C5_attempt_monotonicity envFixThenPass none none).1 0 (by decide),
   (claim_C5_attempt_monotonicity envFixThenPass none none).2⟩

/-- C6: in every failed `BuildResult` that records at least one attempt,
the last attempt's status is `"failed"`, never `"fixed"` — the fixer is
not invoked on the final allowed attempt, and a run whose last recorded
attempt is `"fixed"` or `"success"` is not a failed run. -/
theorem claim_C6_terminal_attempt_failed :
    ∀ (env : ValEnv) (t u : Option String) (a : BuildAttempt),
    (validate env t u).success = false →
    (validate env t u).attempts.getLast? = some a →
    a.status = "failed" := by
  intro env t u a
  simp only [validate]
  by_cases hd : env.dbtPath.isSome = true
  case neg =>
    have hf : env.dbtPath.isSome = false := by simpa using hd
    rw [if_pos (by rw [hf]; rfl)]
    intro _ hlast
    simp at hlast
  case pos =>
    rw [if_neg (by simp [hd])]
    cases hmax : env.maxAttempts with
    | zero =>
      intro _ hlast
      simp [attemptNums, buildLoop_nil] at hlast
    | succ k =>
      intro hsucc hlast
      exact buildLoop_last_failed env _ _ (k + 1) 1 [] [] false (by omega) rfl
        (by simp [hmax]) hsucc a hlast

/-- C6 witness: the always-failing single-attempt run is a failed run
whose last attempt has status `"failed"`. -/
theorem claim_C6_witness :
    (validate envAlwaysFail none none).success = false
    ∧ ((validate envAlwaysFail none none).attempts.getLast?).map (fun a => a.status)
        = some "failed" := by
  have h := claim_C6_terminal_attempt_failed envAlwaysFail none none
  refine ⟨by decide, ?_⟩
  cases hl : (validate envAlwaysFail none none).attempts.getLast? with
  | none => exact absurd hl (by decide)
  | some a => simp [h a (by decide) hl]

theorem not_isEmpty_iff_ne_nil (l : List FilePatch) : (!l.isEmpty) = true ↔ l ≠ [] := by
  cases l <;> simp

/-- C7: `diagnose_and_fix` on an empty error list returns success with
zero patches; on a non-empty list its success flag is true exactly when
its patch list is non-empty, and in particular the exception path of the
generative backend yields failure with zero patches. -/
theorem claim_C7_diagnose_and_fix_success_iff_patches :
    ∀ (env : FixEnv) (maxErrors : Nat),
    (diagnoseAndFix env [] maxErrors
      = { success := true, patches := [], explanation := "No errors to fix.",
          errors_addressed := 0, errors_remaining := 0 })
    ∧ (∀ errors : List DbtError, errors ≠ [] →
        ((diagnoseAndFix env errors maxErrors).success = true
          ↔ (diagnoseAndFix env errors maxErrors).patches ≠ []))
    ∧ (∀ errors : List DbtError, errors ≠ [] →
        (diagnoseAndFix env errors maxErrors).success = false →
        (diagnoseAndFix env errors maxErrors).patches = []) := by
  intro env maxErrors
  refine ⟨rfl, ?_, ?_⟩
  · intro errors hne
    have hcond : ¬(errors.isEmpty = true) := by
      cases errors with
      | nil => exact absurd rfl hne
      | cons e es => simp
    simp only [diagnoseAndFix]
    rw [if_neg hcond]
    split
    · simp only
      exact not_isEmpty_iff_ne_nil _
    · simp
  · intro errors hne
    have hcond : ¬(errors.isEmpty = true) := by
      cases errors with
      | nil => exact absurd rfl hne
      | cons e es => simp
    simp only [diagnoseAndFix]
    rw [if_neg hcond]
    split
    · intro hs
      simp only at hs ⊢
      cases hp : parseResponse env.disk _ with
      | nil => rfl
      | cons q qs => rw [hp] at hs; simp at hs
    · intro _
      rfl

/-- C7 witness: on one concrete compilation error the success flag
matches patch non-emptiness. -/
theorem claim_C7_witness :
    ([sampleError] ≠ ([] : List DbtError))
    ∧ ((diagnoseAndFix fixEnvOk [sampleError] 5).success = true
        ↔ (diagnoseAndFix fixEnvOk [sampleError] 5).patches ≠ []) :=
  ⟨by decide,
   (claim_C7_diagnose_and_fix_success_iff_patches fixEnvOk 5).2.1 [sampleError] (by decide)⟩

/-- C8: the executor's `_run` never raises: with an unresolved binary it
returns exit code −1 and the installation hint in stderr; on timeout it
returns exit code −2 with a descriptive stderr message; any other
subprocess exception is likewise converted to a result (exit code −3). -/
theorem claim_C8_executor_never_raises :
    (∀ (env : ExecEnv) (args : List String) (timeout : Nat),
      env.dbtPath = none →
      execRun env args timeout
        = { command := "dbt " ++ joinSpace args, success := false,
            return_code := -1, stdout := "", stderr := installHint })
    ∧ (∀ (env : ExecEnv) (args : List String) (timeout : Nat) (path : String),
      env.dbtPath = some path → env.proc args timeout = .timedOut →
      execRun env args timeout
        = { command := "dbt " ++ joinSpace args, success := false,
            return_code := -2, stdout := "",
            stderr := "Command timed out after " ++ toString timeout ++ "s" })
    ∧ (∀ (env : ExecEnv) (args : List String) (timeout : Nat) (path msg : String),
      env.dbtPath = some path → env.proc args timeout = .raised msg →
      execRun env args timeout
        = { command := "dbt " ++ joinSpace args, success := false,
            return_code := -3, stdout := "", stderr := msg }) := by
  refine ⟨?_, ?_, ?_⟩
  · intro env args timeout h
    unfold execRun
    rw [h]
  · intro env args timeout path h hp
    unfold execRun
    rw [h]
    simp only
    rw [hp]
  · intro env args timeout path msg h hp
    unfold execRun
    rw [h]
    simp only
    rw [hp]

/-- C8 witness: concrete missing-binary and timeout environments yield
the −1 and −2 results. -/
theorem claim_C8_witness :
    (execEnvNoDbt.dbtPath = none
      ∧ execRun execEnvNoDbt ["build", "--full-refresh"] 600
        = { command := "dbt build --full-refresh", success := false,
            return_code := -1, stdout := "", stderr := installHint })
    ∧ (execEnvTimeout.proc ["seed", "--full-refresh"] 180 = .timedOut
      ∧ execRun execEnvTimeout ["seed", "--full-refresh"] 180
        = { command := "dbt seed --full-refresh", success := false,
            return_code := -2, stdout := "",
            stderr := "Command timed out after 180s" }) := by
  refine ⟨⟨rfl, ?_⟩, rfl, ?_⟩
  · rw [claim_C8_executor_never_raises.1 execEnvNoDbt ["build", "--full-refresh"] 600 rfl]
    decide
  · rw [claim_C8_executor_never_raises.2.1 execEnvTimeout ["seed", "--full-refresh"] 180
      "/usr/local/bin/dbt" rfl rfl]
    decide

@[simp] theorem setPush_versionInfo (env : ValEnv) (f : String → Bool) :
    ({env with push := f} : ValEnv).versionInfo = env.versionInfo := rfl

@[simp] theorem setPush_projectDir (env : ValEnv) (f : String → Bool) :
    ({env with push := f} : ValEnv).projectDir = env.projectDir := rfl

/-- C9: when pushing is configured and a run succeeds after modifying
files, the overall result is still a success and its `pushed_to_github`
flag is exactly the outcome of the mandatory final push (so a failing
final push yields `success = true` with `pushed_to_github = false`); and
the push oracle never influences the run's success, attempt history or
modified-file list, so mid-run push failures never terminate the run. -/
theorem claim_C9_push_failure_semantics :
    (∀ (env : ValEnv) (t u : Option String),
      (truthy t && truthy u) = true →
      (validate env t u).success = true →
      (validate env t u).files_modified ≠ [] →
      (validate env t u).pushed_to_github = env.push "final")
    ∧ (∀ (env : ValEnv) (f g : String → Bool) (t u : Option String),
      ((validate {env with push := f} t u).success
        = (validate {env with push := g} t u).success)
      ∧ ((validate {env with push := f} t u).attempts
        = (validate {env with push := g} t u).attempts)
      ∧ ((validate {env with push := f} t u).files_modified
        = (validate {env with push := g} t u).files_modified)) := by
  constructor
  · intro env t u hcp
    simp only [validate]
    by_cases hd : env.dbtPath.isSome = true
    case neg =>
      have hf : env.dbtPath.isSome = false := by simpa using hd
      rw [if_pos (by rw [hf]; rfl)]
      intro hs
      simp at hs
    case pos =>
      rw [if_neg (by simp [hd]), hcp]
      exact buildLoop_success_pushed env _ (attemptNums 1 env.maxAttempts) [] [] false
  · intro env f g t u
    simp only [validate, setPush_dbtPath, setPush_maxAttempts, setPush_versionInfo,
      setPush_projectDir]
    by_cases hd : env.dbtPath.isSome = true
    case neg =>
      have hf : env.dbtPath.isSome = false := by simpa using hd
      simp [hf]
    case pos =>
      simp only [hd, Bool.not_true, Bool.false_eq_true, if_false, if_true]
      exact buildLoop_push_inv env f g _ _ (attemptNums 1 env.maxAttempts) [] [] false false

/-- C9 witness: the fix-then-pass run with a failing final push still
succeeds, has modified files, and reports `pushed_to_github = false`. -/
theorem claim_C9_witness :
    ((truthy (some "tok") && truthy (some "url")) = true
      ∧ (validate envFixThenPass (some "tok") (some "url")).success = true
      ∧ (validate envFixThenPass (some "tok") (some "url")).files_modified ≠ []
      ∧ (validate envFixThenPass (some "tok") (some "url")).pushed_to_github
          = envFixThenPass.push "final") := by
  refine ⟨by decide, by decide, by decide, ?_⟩
  exact claim_C9_push_failure_semantics.1 envFixThenPass (some "tok") (some "url")
    (by decide) (by decide) (by decide)

/-- C10 (counterexample): an output *containing* the block
`"Database Error in seed s1 (seeds/s1.csv)\nbad row"` but preceded — with
no blank line — by another error block yields only the `seed_error`
entry for `s1`: the earlier block's lazy message swallows the seed block
inside the database pattern's single match, so no `database`-category
error is attributed to `s1`. -/
theorem claim_C10_counterexample :
    containsSub
      (("Database Error in model m0 (models/m0.sql)\nboom\nDatabase Error in seed s1 (seeds/s1.csv)\nbad row").data
        ++ '\n' :: "".data)
      "Database Error in seed s1 (seeds/s1.csv)\nbad row".data = true
    ∧ ((parse "Database Error in model m0 (models/m0.sql)\nboom\nDatabase Error in seed s1 (seeds/s1.csv)\nbad row" "").filter
        (fun e => e.model_name == "s1")).map (fun e => e.category)
        = [ErrorCategory.seed_error] := by decide

/-- C10 (amended): for an output consisting of the single block
`"Database Error in seed NAME (PATH)\nMESSAGE"` (here
`NAME = s1`, `PATH = seeds/s1.csv`, `MESSAGE = bad row`), `parse`
returns two structured errors for the same node — one with category
`database` and one with category `seed_error` — because the name-based
deduplication applies only to the Failure-in-seed and summary-line
loops, not across the structured category patterns; with arbitrary
preceding content the database entry can be lost to an earlier match. -/
theorem claim_C10_dual_categories_amended :
    (parse "Database Error in seed s1 (seeds/s1.csv)\nbad row" "").map
      (fun e => (e.category, e.model_name))
      = [(ErrorCategory.database, "s1"), (ErrorCategory.seed_error, "s1")] := by decide

end Dbt
